import Mathlib

/-!
Shallow embedding of `src/commons/utils/system_utils.py` (cortx-test system
utilities).  Each Python function that a claim refers to is translated into a
Lean definition; interaction with the outside world (the filesystem, a spawned
process, a remote SSH channel) is made explicit by passing the environment's
responses as parameters.  Python exceptions become `Except` errors.
-/

namespace SystemUtils

/-- Tests whether `needle` occurs as a contiguous sublist of `hay`. -/
def listContains : List Char → List Char → Bool
  | [], needle => needle.isEmpty
  | c :: rest, needle => needle.isPrefixOf (c :: rest) || listContains rest needle

/-- Substring test: `pyContains hay needle` models Python `needle in hay`
for `str`/`bytes` operands. -/
def pyContains (hay needle : String) : Bool :=
  listContains hay.data needle.data

/-- A stream value produced by the remote read phase of `run_remote_cmd`:
either a list of lines (`read_lines=True`) or a raw byte string
(`read_lines=False`).  Byte strings are modelled as `String`. -/
inductive PyStream where
  | lines (ls : List String)
  | bytes (bs : String)
deriving DecidableEq, Repr

/-- Python truthiness of a stream value: a list or byte string is truthy
iff it is non-empty. -/
def PyStream.truthy : PyStream → Bool
  | .lines ls => !ls.isEmpty
  | .bytes bs => bs ≠ ""

/-- Models `r.strip().strip("\n").strip()` applied to one line read from the
remote channel (`"\n"` is itself whitespace, so the composite strips exactly
the surrounding whitespace). -/
def pyStripLine (r : String) : String := r.trim

/-- Models `stdout.read(read_nbytes)`: a negative byte count reads the whole
stream, otherwise at most `read_nbytes` bytes are read. -/
def pyRead (bs : String) (read_nbytes : Int) : String :=
  if read_nbytes < 0 then bs else ⟨bs.data.take read_nbytes.toNat⟩

/-- The output value `run_remote_cmd` computes from the remote stdout. -/
def remoteOutput (read_lines : Bool) (stdout_lines : List String)
    (stdout_bytes : String) (read_nbytes : Int) : PyStream :=
  if read_lines then .lines (stdout_lines.map pyStripLine)
  else .bytes (pyRead stdout_bytes read_nbytes)

/-- The error value `run_remote_cmd` computes from the remote stderr. -/
def remoteError (read_lines : Bool) (stderr_lines : List String)
    (stderr_bytes : String) : PyStream :=
  if read_lines then .lines (stderr_lines.map pyStripLine)
  else .bytes stderr_bytes

/-- Model of `run_remote_cmd` (src/commons/utils/system_utils.py:34-73), after the SSH
session has produced an exit status and the two streams.  The stream contents
actually read are given by the `read_lines`/`read_nbytes` options; an
`IOError` raise is an `Except.error` carrying the raised value:
```
if exit_status != 0:
    if error: raise IOError(error)
    raise IOError(output)
client.close()
if error: raise IOError(error)
return output
``` -/
def run_remote_cmd (read_lines : Bool) (read_nbytes : Int) (exit_status : Int)
    (stdout_lines stderr_lines : List String) (stdout_bytes stderr_bytes : String) :
    Except PyStream PyStream :=
  let output := remoteOutput read_lines stdout_lines stdout_bytes read_nbytes
  let error := remoteError read_lines stderr_lines stderr_bytes
  if exit_status ≠ 0 then
    if error.truthy then .error error
    else .error output
  else if error.truthy then .error error
  else .ok output

/-- The two ways `run_local_cmd` can raise: `ValueError` for a missing
command, `IOError` carrying the captured stderr bytes. -/
inductive LocalError where
  | valueError (msg : String)
  | ioError (bytes : String)
deriving DecidableEq, Repr

/-- Model of `run_local_cmd` (src/commons/utils/system_utils.py:76-95).  `output` and
`error` are the byte streams `proc.communicate()` would capture were the
command spawned:
```
if not cmd:
    raise ValueError("Missing required parameter: {}".format(cmd))
proc = Popen(cmd, shell=True, stdout=PIPE, stderr=PIPE)
output, error = proc.communicate()
if b"Number of key(s) added: 1" in output:
    return output
if b"command not found" in error or \
        b"not recognized as an internal or external command" in error or error:
    raise IOError(error)
return output
``` -/
def run_local_cmd (cmd : String) (output error : String) : Except LocalError String :=
  if cmd = "" then .error (.valueError ("Missing required parameter: " ++ cmd))
  else if pyContains output "Number of key(s) added: 1" then .ok output
  else if pyContains error "command not found"
       || pyContains error "not recognized as an internal or external command"
       || error ≠ "" then .error (.ioError error)
  else .ok output

/-- Model of `is_rpm_installed` (src/commons/utils/system_utils.py:592-620), given the
value `execute_cmd` returned for the list-installed-packages command.  For the
line-reading remote path this is a list of strings, modelled here; Python's
`cmd_output[1]` raises `IndexError` when the list has fewer than two
elements, and otherwise yields the string at index 1, whose truthiness is its
non-emptiness:
```
cmd_output = execute_cmd(cmd, remote, *remoteargs, **remoteKwargs)
if cmd_output[1]:
    rpm_installed = False
    return rpm_installed, "RPM not found"
rpm_list = [rpm.split("\n")[0] for rpm in cmd_output[1]]
for rpm in rpm_list:
    if rpm in expected_rpm:
        rpm_installed = True
        break
return rpm_installed, "Expected RPM installed"
```
(iterating over the string `cmd_output[1]` yields its characters). -/
def is_rpm_installed (expected_rpm : String) (cmd_output : List String) :
    Except String (Bool × String) :=
  match cmd_output.get? 1 with
  | none => .error "IndexError: list index out of range"
  | some s =>
    if s ≠ "" then .ok (false, "RPM not found")
    else
      let rpm_list := s.data.map (fun c => ((String.singleton c).splitOn "\n").headD "")
      .ok (rpm_list.any (fun rpm => pyContains expected_rpm rpm), "Expected RPM installed")

/-- Round the exact fraction `a / b` (with `b > 0`) to the nearest integer,
ties to even: the rounding Python applies when formatting a float with
`".1f"` (up to the binary representation of the exact values occurring
here). -/
def round_half_even_div (a b : ℤ) : ℤ :=
  let f := a.fdiv b
  let r := a.emod b
  if 2 * r < b then f
  else if b < 2 * r then f + 1
  else if f % 2 = 0 then f else f + 1

/-- Models Python `format(x, ".1f")` for the non-negative exact fraction
`x = num / den`: one digit after the decimal point. -/
def format_1f_div (num den : ℤ) : String :=
  let n := round_half_even_div (num * 10) den
  toString (Int.fdiv n 10) ++ "." ++ toString (Int.emod n 10)

/-- Model of `get_disk_usage` (src/commons/utils/system_utils.py:683-695), given the
`statvfs` fields for the path; `float(used) / total * 100` is modelled by
the exact fraction `used * 100 / total`:
```
f_blocks, f_frsize, f_bfree = stats.f_blocks, stats.f_frsize, stats.f_bfree
total = (f_blocks * f_frsize)
used = (f_blocks - f_bfree) * f_frsize
result = format((float(used) / total) * 100, ".1f")
``` -/
def get_disk_usage (f_blocks f_frsize f_bfree : ℕ) : String :=
  let total : ℤ := (f_blocks : ℤ) * (f_frsize : ℤ)
  let used : ℤ := ((f_blocks : ℤ) - (f_bfree : ℤ)) * (f_frsize : ℤ)
  format_1f_div (used * 100) total

/-- Models posix `os.path.basename`: the part of the path after the last
slash (`p[p.rfind('/') + 1:]`). -/
def basename (p : String) : String :=
  ⟨(p.data.reverse.takeWhile (fun c => c ≠ '/')).reverse⟩

/-- Models posix `os.path.dirname`: the part of the path up to and including
the last slash, with trailing slashes then stripped unless the result
consists of slashes only. -/
def dirname (p : String) : String :=
  let head := (p.data.reverse.dropWhile (fun c => c ≠ '/')).reverse
  if head = [] ∨ head.all (fun c => c = '/') then ⟨head⟩
  else ⟨(head.reverse.dropWhile (fun c => c = '/')).reverse⟩

/-- One element of the list `split_file` returns: Python
`{"Output": fop, "Size": os.stat(fop).st_size}`. -/
structure SplitPart where
  Output : String
  Size : ℕ
deriving DecidableEq, Repr

/-- The part-writing loop of `split_file`: `k` iterations remain, `ele` is
the current loop index and `remaining` the bytes left in the source file;
`fin.read(n)` yields `min n remaining` bytes and each part's recorded size
is the number of bytes written to it. -/
def split_loop (dir base : String) (readBytes : ℕ → ℕ) :
    ℕ → ℕ → ℕ → List SplitPart
  | 0, _, _ => []
  | k + 1, ele, remaining =>
    let got := min (readBytes ele) remaining
    { Output := dir ++ "/" ++ base ++ "_out" ++ toString ele, Size := got } ::
      split_loop dir base readBytes k (ele + 1) (remaining - got)

/-- Model of `split_file` (src/commons/utils/system_utils.py:454-488).  The function
first (re)creates `filename` with `size` megabytes (`1048576 * size` bytes)
via `create_file`, then reads it sequentially into `split_count` parts:
```
for ele in range(split_count):
    fop = "{}/{}_out{}".format(dir_path, os.path.basename(filename), str(ele))
    if random_part_size:
        read_bytes = random.randint(1048576 * size // 10, 1048576 * size)
    else:
        read_bytes = (1048576 * size // split_count)
    with open(fop, 'wb') as split_fin:
        split_fin.write(fin.read(read_bytes))
        res_d.append({"Output": fop, "Size": os.stat(fop).st_size})
```
The draws of the generator seeded with `random.seed(1048576)` are supplied by
the oracle `randint` (indexed by loop iteration); `split_count = 0` is
outside the model (Python would raise `ZeroDivisionError` in the equal-size
branch). -/
def split_file (filename : String) (size split_count : ℕ)
    (random_part_size : Bool) (randint : ℕ → ℕ) : List SplitPart :=
  let readBytes := fun ele =>
    if random_part_size then randint ele else 1048576 * size / split_count
  split_loop (dirname filename) (basename filename) readBytes
    split_count 0 (1048576 * size)

/-- Models `os.path.join(dpath, filename)` for an absolute directory path
without trailing slash and a plain entry name, as produced by
`os.listdir`. -/
def os_path_join (dpath filename : String) : String :=
  dpath ++ "/" ++ filename

/-- What happens to one directory entry inside `cleanup_dir`'s loop body. -/
inductive EntryOutcome where
  | removed
  | failed
  | skipped
deriving DecidableEq, Repr

/-- Model of `cleanup_dir` (src/commons/utils/system_utils.py:279-299).  `entries` is
the `os.listdir(dpath)` listing; `outcome e` says whether the joined path
`os.path.join(dpath, e)` was a file/link/directory whose
`os.unlink`/`shutil.rmtree` succeeded (`removed`), raised an `OSError`
(`failed`), or matched neither `isfile`/`islink` nor `isdir` so no branch ran
(`skipped`).  Returns the function's boolean result together with the list of
paths actually removed (the directory `dpath` itself is never removed):
```
for filename in os.listdir(dpath):
    file_path = os.path.join(dpath, filename)
    try:
        if os.path.isfile(file_path) or os.path.islink(file_path):
            os.unlink(file_path)
        elif os.path.isdir(file_path):
            shutil.rmtree(file_path)
    except OSError as error:
        return False
return True
``` -/
def cleanup_dir (dpath : String) (entries : List String)
    (outcome : String → EntryOutcome) : Bool × List String :=
  match entries with
  | [] => (true, [])
  | e :: rest =>
    match outcome e with
    | .removed =>
      let r := cleanup_dir dpath rest outcome
      (r.1, os_path_join dpath e :: r.2)
    | .failed => (false, [])
    | .skipped => cleanup_dir dpath rest outcome

/-- Model of `remove_dir` (src/commons/utils/system_utils.py:356-364).  The filesystem
is the list `dirs` of existing directories plus the predicate `isEmptyDir`;
`os.rmdir` removes the directory when it exists and is empty and raises an
`OSError` otherwise, and `os.path.exists` is membership in the updated
directory list:
```
os.rmdir(dpath)
return os.path.exists(dpath)
``` -/
def remove_dir (dirs : List String) (isEmptyDir : String → Bool)
    (dpath : String) : Except String (Bool × List String) :=
  if dpath ∈ dirs ∧ isEmptyDir dpath = true then
    let dirs2 := dirs.filter (fun p => p ≠ dpath)
    .ok (decide (dpath ∈ dirs2), dirs2)
  else .error "OSError"

/-- A filesystem of file contents: each path is absent (`none`) or holds a
byte string. -/
def FileSys := String → Option String

/-- Model of `open_empty_file` (src/commons/utils/system_utils.py:248-257).  Opening a
path in mode `"w"` creates the file if absent and truncates it to zero bytes
if present; the function then returns `os.path.exists(fpath)`:
```
with open(fpath, "w") as _:
    pass
return os.path.exists(fpath)
``` -/
def open_empty_file (fs : FileSys) (fpath : String) : FileSys × Bool :=
  let fs2 : FileSys := fun p => if p = fpath then some "" else fs p
  (fs2, (fs2 fpath).isSome)

/-- Payloads `backup_or_restore_files` can pair with its success flag. -/
inductive BRPayload where
  | files (fs : List String)
  | path (p : String)
  | err (e : String)
deriving DecidableEq, Repr

/-- First error raised while copying the files of `backup_list` in order,
where the oracle `copyErr f` is the error `shutil.copy` raises for `f` (or
`none` when the copy succeeds). -/
def firstFailure (copyErr : String → Option String) : List String → Option String
  | [] => none
  | f :: rest =>
    match copyErr f with
    | some e => some e
    | none => firstFailure copyErr rest

/-- Model of `backup_or_restore_files` (src/commons/utils/system_utils.py:513-548).
`backup_exists` is `os.path.exists(backup_path)`; `mkdirErr`/`chdirErr` are
the errors `os.mkdir(backup_path)`/`os.chdir(backup_path)` raise (`none` on
success) and `copyErr` the per-file error of `shutil.copy`.  Any raised
error is caught by the surrounding `try` and turned into
`(False, error)`.  A run that completes without reaching a `return`
statement — action `"restore"` with a missing backup directory, or an
action other than `"backup"`/`"restore"` — returns Python `None`, modelled
as `Option.none`. -/
def backup_or_restore_files (action : String) (backup_exists : Bool)
    (backup_path : String) (backup_list : List String)
    (mkdirErr chdirErr : Option String) (copyErr : String → Option String) :
    Option (Bool × BRPayload) :=
  if action = "backup" then
    match (if backup_exists then none else mkdirErr) with
    | some e => some (false, .err e)
    | none =>
      match firstFailure copyErr backup_list with
      | some e => some (false, .err e)
      | none => some (true, .files backup_list)
  else if action = "restore" then
    if backup_exists = false then none
    else
      match chdirErr with
      | some e => some (false, .err e)
      | none =>
        match firstFailure copyErr backup_list with
        | some e => some (false, .err e)
        | none => some (true, .path backup_path)
  else none

end SystemUtils

namespace SystemUtils

/-- C2: whenever the remote exit status is non-zero, `run_remote_cmd` raises
an IOError carrying the captured error stream if that stream is non-empty and
the captured output stream otherwise; and whenever the captured error stream
is non-empty (even on exit status 0) it raises an IOError carrying it. -/
theorem run_remote_cmd_error_handling (read_lines : Bool) (read_nbytes exit_status : Int)
    (stdout_lines stderr_lines : List String) (stdout_bytes stderr_bytes : String) :
    (exit_status ≠ 0 →
      run_remote_cmd read_lines read_nbytes exit_status
          stdout_lines stderr_lines stdout_bytes stderr_bytes =
        .error (if (remoteError read_lines stderr_lines stderr_bytes).truthy
                then remoteError read_lines stderr_lines stderr_bytes
                else remoteOutput read_lines stdout_lines stdout_bytes read_nbytes)) ∧
    ((remoteError read_lines stderr_lines stderr_bytes).truthy = true →
      run_remote_cmd read_lines read_nbytes exit_status
          stdout_lines stderr_lines stdout_bytes stderr_bytes =
        .error (remoteError read_lines stderr_lines stderr_bytes)) := by
  constructor
  · intro hne
    simp only [run_remote_cmd, if_pos hne]
    by_cases h : (remoteError read_lines stderr_lines stderr_bytes).truthy
    · simp [h]
    · simp [h]
  · intro htr
    simp only [run_remote_cmd, htr]
    by_cases hne : exit_status ≠ 0 <;> simp [hne, htr]

/-- Witness for C2 at a concrete input: exit status 1 with non-empty raw
stderr bytes raises an IOError carrying those bytes. -/
theorem run_remote_cmd_error_handling_witness :
    run_remote_cmd false (-1) 1 [] [] "ok" "boom" =
      .error (.bytes "boom") := by
  have h := (run_remote_cmd_error_handling false (-1) 1 [] [] "ok" "boom").1
    (by decide)
  rw [h]
  rfl

/-- C3: for a non-empty local command, if the captured error bytes contain a
command-not-found marker (Unix or Windows spelling) or are non-empty at all,
`run_local_cmd` raises an IOError carrying the error bytes — unless the
captured output contains the allow-listed key-installation confirmation
substring, in which case the output is returned successfully. -/
theorem run_local_cmd_error_classification (cmd output error : String)
    (hcmd : cmd ≠ "") :
    (pyContains output "Number of key(s) added: 1" = true →
      run_local_cmd cmd output error = .ok output) ∧
    (pyContains output "Number of key(s) added: 1" = false →
      (pyContains error "command not found"
        || pyContains error "not recognized as an internal or external command"
        || error ≠ "") = true →
      run_local_cmd cmd output error = .error (.ioError error)) := by
  constructor
  · intro hok
    unfold run_local_cmd
    rw [if_neg hcmd, if_pos hok]
  · intro hok herr
    unfold run_local_cmd
    rw [if_neg hcmd, if_neg (by simp [hok]), if_pos herr]

/-- Witness for C3 at a concrete input: a command whose stderr reads
"sh: foo: command not found" raises an IOError carrying those bytes, while
the allow-listed output "Number of key(s) added: 1" is returned successfully
even with non-empty stderr. -/
theorem run_local_cmd_error_classification_witness :
    run_local_cmd "foo" "" "sh: foo: command not found" =
      .error (.ioError "sh: foo: command not found") ∧
    run_local_cmd "ssh-copy-id h" "Number of key(s) added: 1" "warning" =
      .ok "Number of key(s) added: 1" := by
  refine ⟨?_, ?_⟩
  · exact (run_local_cmd_error_classification "foo" "" "sh: foo: command not found"
      (by decide)).2 (by decide) (by decide)
  · exact (run_local_cmd_error_classification "ssh-copy-id h"
      "Number of key(s) added: 1" "warning" (by decide)).1 (by decide)

/-- C4 counterexample: on the empty command `run_local_cmd` does not raise an
IOError carrying the captured error bytes (here "err"); it raises a
ValueError with the message "Missing required parameter: ". -/
theorem run_local_cmd_empty_not_ioerror :
    run_local_cmd "" "out" "err" ≠ .error (.ioError "err") ∧
    run_local_cmd "" "out" "err" =
      .error (.valueError "Missing required parameter: ") := by
  constructor
  · intro h
    simp [run_local_cmd] at h
  · rfl

/-- C4 amended: on an empty command string, `run_local_cmd` raises a
ValueError whose message is "Missing required parameter: " followed by the
(empty) command, before any command is executed, so no error bytes are
captured or carried. -/
theorem run_local_cmd_empty_valueerror (output error : String) :
    run_local_cmd "" output error =
      .error (.valueError "Missing required parameter: ") := rfl

/-- Witness for the amended C4 at a concrete input: captured streams "out"
and "err". -/
theorem run_local_cmd_empty_valueerror_witness :
    run_local_cmd "" "out" "err" =
      .error (.valueError "Missing required parameter: ") :=
  run_local_cmd_empty_valueerror "out" "err"

/-- C1: on the inputs of the claim — the underlying list command returning
`["foo-1.2-rpm"]` with expected substring `"foo"`, or returning `[]` —
`is_rpm_installed` raises `IndexError` (indexing element 1 of a list with
fewer than two elements) instead of returning `(true, _)` respectively
`(false, "RPM not found")`. -/
theorem is_rpm_installed_indexerror :
    is_rpm_installed "foo" ["foo-1.2-rpm"] =
      .error "IndexError: list index out of range" ∧
    is_rpm_installed "foo" [] =
      .error "IndexError: list index out of range" := ⟨rfl, rfl⟩

/-- C8: for statvfs fields blocks=100, frsize=1, bfree=40, `get_disk_usage`
returns the string "60.0" (percent used to one decimal place). -/
theorem get_disk_usage_60 : get_disk_usage 100 1 40 = "60.0" := by decide

/-- C9: calling `open_empty_file` on a path holding a file with non-empty
content truncates that file to zero bytes and returns True. -/
theorem open_empty_file_truncates (fs : FileSys) (fpath c : String)
    (hex : fs fpath = some c) (hne : c ≠ "") :
    (open_empty_file fs fpath).1 fpath = some "" ∧
    (open_empty_file fs fpath).2 = true := by
  refine ⟨?_, ?_⟩ <;> simp [open_empty_file]

/-- Witness for C9 at a concrete input: a filesystem holding "data" at
"/tmp/f". -/
theorem open_empty_file_truncates_witness :
    (open_empty_file (fun p => if p = "/tmp/f" then some "data" else none)
        "/tmp/f").1 "/tmp/f" = some "" ∧
    (open_empty_file (fun p => if p = "/tmp/f" then some "data" else none)
        "/tmp/f").2 = true :=
  open_empty_file_truncates (fun p => if p = "/tmp/f" then some "data" else none)
    "/tmp/f" "data" (by simp) (by simp)

/-- C7: every value `remove_dir` returns (it only returns when `os.rmdir`
succeeded; otherwise the OSError propagates) is the existence of the
directory in the post-removal filesystem, and that value is False because
the directory is gone. -/
theorem remove_dir_returns_nonexistence (dirs : List String)
    (isEmptyDir : String → Bool) (dpath : String) (b : Bool) (dirs2 : List String)
    (h : remove_dir dirs isEmptyDir dpath = .ok (b, dirs2)) :
    b = decide (dpath ∈ dirs2) ∧ b = false ∧ dpath ∉ dirs2 := by
  unfold remove_dir at h
  split at h
  · simp only [Except.ok.injEq, Prod.mk.injEq] at h
    obtain ⟨hb, hd⟩ := h
    subst hd
    have hnm : dpath ∉ dirs.filter (fun p => p ≠ dpath) := by
      simp [List.mem_filter]
    refine ⟨hb.symm, ?_, hnm⟩
    rw [← hb]
    simpa using hnm
  · simp at h

/-- Witness for C7 at a concrete input: removing the sole empty directory
"d" returns False and leaves a filesystem without "d". -/
theorem remove_dir_returns_nonexistence_witness :
    (false : Bool) = decide ("d" ∈ ([] : List String)) ∧
    (false : Bool) = false ∧ "d" ∉ ([] : List String) :=
  remove_dir_returns_nonexistence ["d"] (fun _ => true) "d" false [] rfl

/-- C10: `backup_or_restore_files` returns Python `None` (no (success,
payload) pair) for action "restore" with a missing backup directory and for
any action other than "backup"/"restore", while every other completed path
returns a pair. -/
theorem backup_or_restore_files_none_paths (action : String)
    (backup_exists : Bool) (backup_path : String) (backup_list : List String)
    (mkdirErr chdirErr : Option String) (copyErr : String → Option String) :
    (action = "restore" → backup_exists = false →
      backup_or_restore_files action backup_exists backup_path backup_list
        mkdirErr chdirErr copyErr = none) ∧
    (action ≠ "backup" → action ≠ "restore" →
      backup_or_restore_files action backup_exists backup_path backup_list
        mkdirErr chdirErr copyErr = none) ∧
    (action = "backup" →
      (backup_or_restore_files action backup_exists backup_path backup_list
        mkdirErr chdirErr copyErr).isSome = true) ∧
    (action = "restore" → backup_exists = true →
      (backup_or_restore_files action backup_exists backup_path backup_list
        mkdirErr chdirErr copyErr).isSome = true) := by
  refine ⟨?_, ?_, ?_, ?_⟩
  · intro ha hb
    subst ha; subst hb
    simp [backup_or_restore_files]
  · intro ha hb
    unfold backup_or_restore_files
    rw [if_neg ha, if_neg hb]
  · intro ha
    subst ha
    unfold backup_or_restore_files
    rw [if_pos rfl]
    cases backup_exists with
    | true =>
      cases hf : firstFailure copyErr backup_list with
      | none => simp [hf]
      | some e => simp [hf]
    | false =>
      cases mkdirErr with
      | none =>
        cases hf : firstFailure copyErr backup_list with
        | none => simp [hf]
        | some e => simp [hf]
      | some e => simp
  · intro ha hb
    subst ha; subst hb
    unfold backup_or_restore_files
    cases chdirErr with
    | none =>
      cases hf : firstFailure copyErr backup_list with
      | none => simp [hf]
      | some e => simp [hf]
    | some e => simp

/-- Joining two different entry names onto the same directory gives
different paths. -/
theorem os_path_join_right_inj (d a b : String)
    (h : os_path_join d a = os_path_join d b) : a = b := by
  unfold os_path_join at h
  have h2 := congrArg String.data h
  rw [String.data_append, String.data_append, String.data_append,
    String.data_append] at h2
  have h3 := List.append_cancel_left h2
  exact String.ext h3

/-- A joined path is strictly longer than the directory, so the directory
itself is never among the joined entry paths. -/
theorem dpath_not_mem_joined (dpath : String) (l : List String) :
    dpath ∉ l.map (os_path_join dpath) := by
  intro hmem
  obtain ⟨e, _, heq⟩ := List.mem_map.mp hmem
  have h2 := congrArg (fun s => s.data.length) heq
  have hs : "/".data.length = 1 := rfl
  simp only [os_path_join, String.data_append, List.append_assoc,
    List.length_append, hs] at h2
  omega

/-- C6: on a listing made of removable entries `pre`, then a failing entry
`bad`, then further entries `post` (all names distinct, as in a directory
listing), `cleanup_dir` returns False, removes exactly the joined paths of
`pre`, and neither the failing entry, nor any later entry, nor the
directory itself is removed. -/
theorem cleanup_dir_partial_failure (dpath bad : String) (pre post : List String)
    (outcome : String → EntryOutcome)
    (hpre : ∀ e ∈ pre, outcome e = .removed)
    (hbad : outcome bad = .failed)
    (hnd : (pre ++ bad :: post).Nodup) :
    cleanup_dir dpath (pre ++ bad :: post) outcome =
      (false, pre.map (os_path_join dpath)) ∧
    os_path_join dpath bad ∉ pre.map (os_path_join dpath) ∧
    (∀ p ∈ post, os_path_join dpath p ∉ pre.map (os_path_join dpath)) ∧
    dpath ∉ pre.map (os_path_join dpath) := by
  have hdisj : pre.Disjoint (bad :: post) := (List.nodup_append.mp hnd).2.2
  have hjoin_not : ∀ x, x ∉ pre →
      os_path_join dpath x ∉ pre.map (os_path_join dpath) := by
    intro x hx hmem
    obtain ⟨e, he, heq⟩ := List.mem_map.mp hmem
    exact hx (os_path_join_right_inj dpath e x heq ▸ he)
  refine ⟨?_, ?_, ?_, dpath_not_mem_joined dpath pre⟩
  · clear hnd hdisj hjoin_not
    induction pre with
    | nil => simp [cleanup_dir, hbad]
    | cons e rest ih =>
      have he : outcome e = .removed := hpre e (by simp)
      have hr := ih (fun x hx => hpre x (by simp [hx]))
      simp [cleanup_dir, he, hr]
  · exact hjoin_not bad (fun hmem => hdisj hmem (by simp))
  · exact fun p hp =>
      hjoin_not p (fun hmem => hdisj hmem (List.mem_cons_of_mem bad hp))

/-- Witness for C6 at a concrete input: entries "a", "b" removable, "c"
failing, "d" after it; cleanup of "/dir" removes exactly "/dir/a" and
"/dir/b" and returns False. -/
theorem cleanup_dir_partial_failure_witness :
    cleanup_dir "/dir" (["a", "b"] ++ "c" :: ["d"])
        (fun e => if e = "a" ∨ e = "b" then .removed
                  else if e = "c" then .failed else .skipped) =
      (false, ["a", "b"].map (os_path_join "/dir")) ∧
    os_path_join "/dir" "c" ∉ ["a", "b"].map (os_path_join "/dir") ∧
    (∀ p ∈ ["d"], os_path_join "/dir" p ∉ ["a", "b"].map (os_path_join "/dir")) ∧
    "/dir" ∉ ["a", "b"].map (os_path_join "/dir") :=
  cleanup_dir_partial_failure "/dir" "c" ["a", "b"] ["d"]
    (fun e => if e = "a" ∨ e = "b" then .removed
              else if e = "c" then .failed else .skipped)
    (by decide) (by decide) (by decide)

/-- When every read requests the same `q` bytes and at least `n * q` bytes
remain, the split loop produces `n` parts of exactly `q` bytes each, in
loop-index order. -/
theorem split_loop_const (dir base : String) (f : ℕ → ℕ) (q : ℕ)
    (hf : ∀ i, f i = q) :
    ∀ (n ele remaining : ℕ), n * q ≤ remaining →
      split_loop dir base f n ele remaining =
        (List.range' ele n).map
          (fun i => { Output := dir ++ "/" ++ base ++ "_out" ++ toString i,
                      Size := q }) := by
  intro n
  induction n with
  | zero => intro ele remaining _; simp [split_loop]
  | succ k ih =>
    intro ele remaining hle
    rw [Nat.succ_mul] at hle
    have hq : q ≤ remaining := le_trans (Nat.le_add_left q (k * q)) hle
    have hgot : min (f ele) remaining = q := by
      rw [hf ele]; exact min_eq_left hq
    have hrec := ih (ele + 1) (remaining - q) (by omega)
    simp only [split_loop, hgot, hrec, List.range']
    simp

/-- C5: splitting a freshly created file of `size` MB (`1048576 * size`
bytes) into `split_count` equal parts produces exactly `split_count` parts
in order, each of `1048576 * size / split_count` bytes (floor), whose sizes
sum to `1048576 * size` minus the truncation remainder
`1048576 * size % split_count`. -/
theorem split_file_equal_parts (filename : String) (size split_count : ℕ)
    (randint : ℕ → ℕ) (hcount : 0 < split_count) :
    split_file filename size split_count false randint =
      (List.range split_count).map
        (fun i => { Output := dirname filename ++ "/" ++ basename filename
                      ++ "_out" ++ toString i,
                    Size := 1048576 * size / split_count }) ∧
    ((split_file filename size split_count false randint).map
        SplitPart.Size).sum =
      1048576 * size - 1048576 * size % split_count := by
  have h1 : split_file filename size split_count false randint =
      (List.range' 0 split_count).map
        (fun i => { Output := dirname filename ++ "/" ++ basename filename
                      ++ "_out" ++ toString i,
                    Size := 1048576 * size / split_count }) := by
    unfold split_file
    exact split_loop_const (dirname filename) (basename filename) _
      (1048576 * size / split_count) (fun i => by simp)
      split_count 0 (1048576 * size)
      (by rw [Nat.mul_comm]; exact Nat.div_mul_le_self _ _)
  have hdm := Nat.div_add_mod (1048576 * size) split_count
  constructor
  · rw [h1, List.range_eq_range']
  · rw [h1, List.map_map]
    have h2 : (SplitPart.Size ∘ fun (i : ℕ) =>
        ({ Output := dirname filename ++ "/" ++ basename filename
             ++ "_out" ++ toString i,
           Size := 1048576 * size / split_count } : SplitPart)) =
        fun _ => 1048576 * size / split_count := rfl
    rw [h2, List.map_const', List.sum_replicate, List.length_range',
      smul_eq_mul]
    omega

/-- Witness for C5 at a concrete input: a 1 MB file split into 2 equal
parts gives two 524288-byte parts summing to 1048576 bytes. -/
theorem split_file_equal_parts_witness :
    split_file "/tmp/data.bin" 1 2 false (fun _ => 0) =
      (List.range 2).map
        (fun i => { Output := dirname "/tmp/data.bin" ++ "/"
                      ++ basename "/tmp/data.bin" ++ "_out" ++ toString i,
                    Size := 1048576 * 1 / 2 }) ∧
    ((split_file "/tmp/data.bin" 1 2 false (fun _ => 0)).map
        SplitPart.Size).sum = 1048576 * 1 - 1048576 * 1 % 2 :=
  split_file_equal_parts "/tmp/data.bin" 1 2 (fun _ => 0) (by decide)

/-- Witness for C10 at concrete inputs: restore with a missing backup
directory returns None, and an unknown action returns None. -/
theorem backup_or_restore_files_none_paths_witness :
    backup_or_restore_files "restore" false "/bk" ["/etc/f"] none none
      (fun _ => none) = none ∧
    backup_or_restore_files "archive" true "/bk" ["/etc/f"] none none
      (fun _ => none) = none :=
  ⟨(backup_or_restore_files_none_paths "restore" false "/bk" ["/etc/f"] none none
      (fun _ => none)).1 rfl rfl,
   (backup_or_restore_files_none_paths "archive" true "/bk" ["/etc/f"] none none
      (fun _ => none)).2.1 (by decide) (by decide)⟩

end SystemUtils
